import Mathlib

/-!
Shallow embedding of `src/transform_geonames.py`: a schema-driven
record-to-triple mapping engine that turns decoded rows of GeoNames
gazetteer files into subject-predicate-object triples.

Modelling conventions:
* A decoded cell is `Option String`: `none` is a pandas `NaN` (absent /
  blank field after tab-delimited decoding), `some v` is a present value
  rendered as a string (rdflib `Literal` payloads are abstracted to their
  textual form).
* A `Row` is the association list from the declared column names of a file to
  cells, mirroring a pandas row indexed by `df.columns`.
* `add_triples` is the pure reframing of the triple emitter in the source: it
  returns the list of `g.add` calls the Python loop performs, in order.
* `process_file` mirrors the dispatcher: the `file_columns` table lookup,
  the column assignment, the first-row drop for `iso-languagecodes.txt`,
  and the per-file-type processing functions.
-/

/-- One subject-predicate-object triple, all components rendered as the
strings rdflib would hold (URIs for subject and predicate, the textual
form of the literal for a property object). -/
structure Triple where
  subj : String
  pred : String
  obj : String
deriving DecidableEq

/-- The base vocabulary namespace bound in `create_graph`:
`Namespace("http://example.org/geonames/")`. -/
def EX : String := "http://example.org/geonames/"

/-- A term of the `EX` namespace, as `EX.foo` renders in rdflib. -/
def exTerm (t : String) : String := EX ++ t

/-- `RDF.type`, the predicate of every type-assertion triple. -/
def rdfType : String := "http://www.w3.org/1999/02/22-rdf-syntax-ns#type"

/-- A decoded record: the declared column names of the file paired with
the cells of the row (`none` = pandas `NaN`). -/
abbrev Row := List (String × Option String)

/-- Cell lookup `row[col]`; an undeclared column reads as absent. -/
def rowGet (r : Row) (c : String) : Option String :=
  match r.find? (fun p => p.1 == c) with
  | some p => p.2
  | none => none

/-- Python f-string rendering of a cell: a present value renders as
itself; a missing cell (pandas `NaN`, a float nan) renders as `"nan"`. -/
def cellStr : Option String → String
  | some s => s
  | none => "nan"

/-- A Mapping Rule: the per-EntityKind data threaded through
`add_triples` (`subject_class`, `subject_` pre-string, the ordered
property dictionary, and `id_column`). -/
structure MappingRule where
  subject_class : String
  subjPre : String
  properties : List (String × String)
  id_column : String
deriving DecidableEq

/-- The subject URI built for a row: in the source, a `URIRef` of the
subject pre-string followed by the f-string rendering of the cell at
`id_column`. -/
def subjectOf (rule : MappingRule) (row : Row) : String :=
  rule.subjPre ++ cellStr (rowGet row rule.id_column)

/-- The loop body of `add_triples` for one row: one type-assertion triple,
then one property triple per `(prop, col)` pair whose cell is present
(`pd.notna`). -/
def row_triples (rule : MappingRule) (row : Row) : List Triple :=
  let subject := subjectOf rule row
  Triple.mk subject rdfType rule.subject_class ::
    rule.properties.filterMap (fun pc =>
      (rowGet row pc.2).map (fun v => Triple.mk subject pc.1 v))

/-- `add_triples(g, df, subject_class, subject_prefix, properties,
id_column)`, reframed to return the ordered list of triples the loop adds
to `g`. -/
def add_triples (df : List Row) (rule : MappingRule) : List Triple :=
  df.flatMap (row_triples rule)

/-- Rule of `process_admin1_codes`. -/
def admin1CodesRule : MappingRule :=
  { subject_class := exTerm "Admin1Code"
    subjPre := exTerm "admin1Code"
    properties := [(exTerm "code", "code"), (exTerm "name", "name"),
      (exTerm "name_ascii", "name_ascii"), (exTerm "geonameid", "geonameid")]
    id_column := "code" }

/-- Rule of `process_admin2_codes`. -/
def admin2CodesRule : MappingRule :=
  { subject_class := exTerm "Admin2Code"
    subjPre := exTerm "admin2Code"
    properties := [(exTerm "code", "code"), (exTerm "name", "name"),
      (exTerm "asciiname", "asciiname"), (exTerm "geonameid", "geonameid")]
    id_column := "code" }

/-- Rule of `process_admin5_codes`. -/
def admin5CodesRule : MappingRule :=
  { subject_class := exTerm "Admin5Code"
    subjPre := exTerm "admin5Code"
    properties := [(exTerm "geonameid", "geonameid"), (exTerm "adm5code", "adm5code")]
    id_column := "geonameid" }

/-- Rule of `process_alternate_names`. -/
def alternateNamesRule : MappingRule :=
  { subject_class := exTerm "AlternateName"
    subjPre := exTerm "alternateName"
    properties := [(exTerm "alternateNameId", "alternateNameId"),
      (exTerm "geonameid", "geonameid"), (exTerm "isolanguage", "isolanguage"),
      (exTerm "alternate_name", "alternate_name")]
    id_column := "alternateNameId" }

/-- Rule of `process_cities` (shared by the four city files). -/
def citiesRule : MappingRule :=
  { subject_class := exTerm "City"
    subjPre := exTerm "city"
    properties := [(exTerm "geonameid", "geonameid"), (exTerm "name", "name"),
      (exTerm "asciiname", "asciiname"), (exTerm "alternatenames", "alternatenames"),
      (exTerm "latitude", "latitude"), (exTerm "longitude", "longitude"),
      (exTerm "feature_class", "feature_class"), (exTerm "feature_code", "feature_code"),
      (exTerm "country_code", "country_code"), (exTerm "cc2", "cc2"),
      (exTerm "admin1_code", "admin1_code"), (exTerm "admin2_code", "admin2_code"),
      (exTerm "admin3_code", "admin3_code"), (exTerm "admin4_code", "admin4_code"),
      (exTerm "population", "population"), (exTerm "elevation", "elevation"),
      (exTerm "dem", "dem"), (exTerm "timezone", "timezone"),
      (exTerm "modification_date", "modification_date")]
    id_column := "geonameid" }

/-- Rule of `process_country_info`; the commented-out schema columns
(postal code regex, languages, geoname id, neighbours, equivalent FIPS
code) are deliberately not in `properties`. -/
def countryInfoRule : MappingRule :=
  { subject_class := exTerm "CountryInfo"
    subjPre := exTerm "countryInfo"
    properties := [(exTerm "iso", "ISO"), (exTerm "iso3", "ISO3"),
      (exTerm "iso_numeric", "ISO-Numeric"), (exTerm "fips", "fips"),
      (exTerm "country", "Country"), (exTerm "capital", "Capital"),
      (exTerm "area_in_sq_km", "Area(in sq km)"), (exTerm "population", "Population"),
      (exTerm "continent", "Continent"), (exTerm "tld", "tld"),
      (exTerm "currency_code", "CurrencyCode"), (exTerm "currency_name", "CurrencyName"),
      (exTerm "phone", "Phone"), (exTerm "postal_code_format", "Postal Code Format")]
    id_column := "ISO" }

/-- Rule of `process_feature_codes`. -/
def featureCodesRule : MappingRule :=
  { subject_class := exTerm "FeatureCode"
    subjPre := exTerm "featureCode"
    properties := [(exTerm "code", "code"), (exTerm "name", "name"),
      (exTerm "description", "description")]
    id_column := "code" }

/-- Rule of `process_hierarchy`; note `parentId` is both the identifier
column and a mapped property. -/
def hierarchyRule : MappingRule :=
  { subject_class := exTerm "Hierarchy"
    subjPre := exTerm "hierarchy"
    properties := [(exTerm "parentId", "parentId"), (exTerm "childId", "childId"),
      (exTerm "type", "type")]
    id_column := "parentId" }

/-- Rule of `process_iso_language_codes` (applied after the column
rename replacing spaces by underscores). -/
def isoLanguageCodesRule : MappingRule :=
  { subject_class := exTerm "ISOLanguageCode"
    subjPre := exTerm "isoLanguageCode"
    properties := [(exTerm "iso_639_3", "ISO_639_3"), (exTerm "iso_639_2", "ISO_639_2"),
      (exTerm "iso_639_1", "ISO_639_1"), (exTerm "language_name", "Language_Name")]
    id_column := "ISO_639_3" }

/-- Rule of `process_time_zones`. -/
def timeZonesRule : MappingRule :=
  { subject_class := exTerm "TimeZone"
    subjPre := exTerm "timeZone"
    properties := [(exTerm "country_code", "CountryCode"),
      (exTerm "timezone_id", "TimeZoneId"), (exTerm "gmt_offset", "GMT_offset_1_Jan_2025"),
      (exTerm "dst_offset", "DST_offset_1_Jul_2025"),
      (exTerm "raw_offset", "rawOffset_independant_of_DST")]
    id_column := "CountryCode" }

/-- The ten Mapping Rules, one per EntityKind. -/
def allRules : List MappingRule :=
  [admin1CodesRule, admin2CodesRule, admin5CodesRule, alternateNamesRule,
   citiesRule, countryInfoRule, featureCodesRule, hierarchyRule,
   isoLanguageCodesRule, timeZonesRule]

def process_admin1_codes (df : List Row) : List Triple := add_triples df admin1CodesRule

def process_admin2_codes (df : List Row) : List Triple := add_triples df admin2CodesRule

def process_admin5_codes (df : List Row) : List Triple := add_triples df admin5CodesRule

def process_alternate_names (df : List Row) : List Triple := add_triples df alternateNamesRule

def process_cities (df : List Row) : List Triple := add_triples df citiesRule

def process_country_info (df : List Row) : List Triple := add_triples df countryInfoRule

def process_feature_codes (df : List Row) : List Triple := add_triples df featureCodesRule

def process_hierarchy (df : List Row) : List Triple := add_triples df hierarchyRule

/-- `process_iso_language_codes`: renames every column by replacing
spaces with underscores, then emits with the ISOLanguageCode rule. -/
def process_iso_language_codes (df : List Row) : List Triple :=
  add_triples (df.map (fun r => r.map (fun p => (p.1.replace " " "_", p.2)))) isoLanguageCodesRule

def process_time_zones (df : List Row) : List Triple := add_triples df timeZonesRule

/-- The column schema shared by the four city files. -/
def citiesColumns : List String :=
  ["geonameid", "name", "asciiname", "alternatenames", "latitude", "longitude",
   "feature_class", "feature_code", "country_code", "cc2", "admin1_code",
   "admin2_code", "admin3_code", "admin4_code", "population", "elevation",
   "dem", "timezone", "modification_date"]

/-- The `file_columns` table of `process_file`: recognized file names and
their declared column schemas. -/
def file_columns : List (String × List String) :=
  [("admin1CodesASCII.txt", ["code", "name", "name_ascii", "geonameid"]),
   ("admin2Codes.txt", ["code", "name", "asciiname", "geonameid"]),
   ("adminCode5.txt", ["geonameid", "adm5code"]),
   ("alternateNamesV2.txt", ["alternateNameId", "geonameid", "isolanguage",
      "alternate_name", "isPreferredName", "isShortName", "isColloquial",
      "isHistoric", "from", "to"]),
   ("cities500.txt", citiesColumns),
   ("cities1000.txt", citiesColumns),
   ("cities5000.txt", citiesColumns),
   ("cities15000.txt", citiesColumns),
   ("countryInfo.txt", ["ISO", "ISO3", "ISO-Numeric", "fips", "Country", "Capital",
      "Area(in sq km)", "Population", "Continent", "tld", "CurrencyCode",
      "CurrencyName", "Phone", "Postal Code Format"]),
   ("featureCodes_en.txt", ["code", "name", "description"]),
   ("hierarchy.txt", ["parentId", "childId", "type"]),
   ("iso-languagecodes.txt", ["ISO_639_3", "ISO_639_2", "ISO_639_1", "Language_Name"]),
   ("timeZones.txt", ["CountryCode", "TimeZoneId", "GMT_offset_1_Jan_2025",
      "DST_offset_1_Jul_2025", "rawOffset_independant_of_DST"])]

/-- `df.columns = file_columns[file_name]`: key one decoded raw row by the
declared column names. -/
def mkRow (cols : List String) (vals : List (Option String)) : Row :=
  cols.zip vals

/-- `process_file(g, EX, file_name, file_path)`, reframed over the decoded
raw rows of the file: looks the name up in `file_columns` (unrecognized
names are skipped, emitting nothing), keys the rows by the declared
columns, drops the first decoded row for `iso-languagecodes.txt`
(`df.drop(0)`), and dispatches to the per-file-type processor. Returns
the ordered list of triples added to the graph. -/
def process_file (file_name : String) (df : List (List (Option String))) : List Triple :=
  match file_columns.find? (fun p => p.1 == file_name) with
  | none => []
  | some pc =>
    let rows := df.map (mkRow pc.2)
    if file_name == "admin1CodesASCII.txt" then process_admin1_codes rows
    else if file_name == "admin2Codes.txt" then process_admin2_codes rows
    else if file_name == "adminCode5.txt" then process_admin5_codes rows
    else if file_name == "alternateNamesV2.txt" then process_alternate_names rows
    else if (file_name == "cities500.txt" || file_name == "cities1000.txt"
        || file_name == "cities5000.txt" || file_name == "cities15000.txt") then
      process_cities rows
    else if file_name == "countryInfo.txt" then process_country_info rows
    else if file_name == "featureCodes_en.txt" then process_feature_codes rows
    else if file_name == "hierarchy.txt" then process_hierarchy rows
    else if file_name == "iso-languagecodes.txt" then
      process_iso_language_codes (rows.drop 1)
    else if file_name == "timeZones.txt" then process_time_zones rows
    else []

/-- The graph accumulator. The store is the external rdflib `Graph`,
which is not part of this repository; modelled from the spec and the
documented rdflib contract: an RDF graph is a set of triples, so `add` of an
already-present triple leaves the store unchanged, while a new triple is
appended. -/
abbrev Graph := List Triple

/-- `g.add(t)` of the rdflib store: set-insertion. -/
def Graph.addTriple (g : Graph) (t : Triple) : Graph :=
  if t ∈ g then g else g ++ [t]

/-- A decoded `hierarchy.txt` row `(parentId=100, childId=200, type=ADM)`. -/
def hrow1 : Row := mkRow ["parentId", "childId", "type"] [some "100", some "200", some "ADM"]

/-- A decoded `hierarchy.txt` row whose identifier column `parentId` is
absent. -/
def hrow_noid : Row := mkRow ["parentId", "childId", "type"] [none, some "200", some "ADM"]

/-- The raw decoded rows of a two-row `hierarchy.txt`:
`(parentId=100, childId=200, type=ADM)` and
`(parentId=100, childId=300, type=ADM)`. -/
def hierDf : List (List (Option String)) :=
  [[some "100", some "200", some "ADM"], [some "100", some "300", some "ADM"]]

/-- A decoded `countryInfo.txt` row with `ISO=FR, Country=France,
Capital=Paris, Population=67000000, Postal Code Format=#####`, every other
declared column absent, and the raw-schema columns `neighbours` and
`Languages` populated. -/
def frRow : Row :=
  [("ISO", some "FR"), ("ISO3", none), ("ISO-Numeric", none), ("fips", none),
   ("Country", some "France"), ("Capital", some "Paris"), ("Area(in sq km)", none),
   ("Population", some "67000000"), ("Continent", none), ("tld", none),
   ("CurrencyCode", none), ("CurrencyName", none), ("Phone", none),
   ("Postal Code Format", some "#####"), ("neighbours", some "DE"), ("Languages", some "fr")]

/-- The declared column schema of `iso-languagecodes.txt`. -/
def isoColumnsList : List String := ["ISO_639_3", "ISO_639_2", "ISO_639_1", "Language_Name"]

/-- The restated-header row of `iso-languagecodes.txt`: each value equals
its column name. -/
def isoHeaderRaw : List (Option String) :=
  [some "ISO_639_3", some "ISO_639_2", some "ISO_639_1", some "Language_Name"]

/-- In an association list with pairwise-distinct keys, a key determines
its value. -/
theorem assoc_key_unique {α β : Type} {l : List (α × β)}
    (hpw : l.Pairwise (fun a b => a.1 ≠ b.1)) {p : α} {c c' : β}
    (h1 : (p, c) ∈ l) (h2 : (p, c') ∈ l) : c = c' := by
  induction l with
  | nil => cases h1
  | cons a l ih =>
    rcases List.pairwise_cons.mp hpw with ⟨ha, hl⟩
    rcases List.mem_cons.mp h1 with rfl | h1'
    · rcases List.mem_cons.mp h2 with heq | h2'
      · exact (congrArg Prod.snd heq).symm
      · exact (ha _ h2' rfl).elim
    · rcases List.mem_cons.mp h2 with rfl | h2'
      · exact (ha _ h1' rfl).elim
      · exact ih hl h1' h2'

/-- Every triple emitted for one row carries the subject built from that
row. -/
theorem subj_of_mem_row_triples (rule : MappingRule) (row : Row) :
    ∀ t ∈ row_triples rule row, t.subj = subjectOf rule row := by
  intro t ht
  simp only [row_triples] at ht
  rcases List.mem_cons.mp ht with rfl | hmem
  · rfl
  · rcases List.mem_filterMap.mp hmem with ⟨pc, _, hf⟩
    rcases Option.map_eq_some'.mp hf with ⟨w, _, heq⟩
    rw [← heq]

/-- For a rule with pairwise-distinct property names, none of which is the
type-assertion predicate, a property triple for the pair `(p, c)` exists
among the triples of a row iff the cell at column `c` is present. -/
theorem prop_triple_iff_present (rule : MappingRule) (row : Row) (p c : String)
    (hpc : (p, c) ∈ rule.properties)
    (hpw : rule.properties.Pairwise (fun a b => a.1 ≠ b.1))
    (hty : ∀ pc ∈ rule.properties, pc.1 ≠ rdfType) :
    (∃ v, Triple.mk (subjectOf rule row) p v ∈ row_triples rule row) ↔
      (rowGet row c).isSome := by
  constructor
  · rintro ⟨v, hv⟩
    simp only [row_triples] at hv
    rcases List.mem_cons.mp hv with heq | hmem
    · exact (hty _ hpc (congrArg Triple.pred heq)).elim
    · rcases List.mem_filterMap.mp hmem with ⟨pc2, hpc2, hf⟩
      rcases Option.map_eq_some'.mp hf with ⟨w, hw, heq⟩
      have hp : pc2.1 = p := congrArg Triple.pred heq
      have hc : pc2.2 = c := by
        refine assoc_key_unique hpw ?_ hpc
        rw [← hp]
        exact hpc2
      rw [← hc, hw]
      rfl
  · intro h
    obtain ⟨v, hv⟩ := Option.isSome_iff_exists.mp h
    refine ⟨v, ?_⟩
    simp only [row_triples]
    exact List.mem_cons_of_mem _ (List.mem_filterMap.mpr ⟨(p, c), hpc, by rw [hv]; rfl⟩)

/-- For a rule none of whose property names is the type-assertion
predicate, the type-assertion triples emitted for a row with a present
identifier cell are exactly one triple, whose subject appends the raw
identifier value to the subject pre-string and whose object is the class
of the rule. -/
theorem type_triples_of_row (rule : MappingRule) (row : Row) (v : String)
    (hid : rowGet row rule.id_column = some v)
    (hty : ∀ pc ∈ rule.properties, pc.1 ≠ rdfType) :
    (row_triples rule row).filter (fun t => t.pred == rdfType) =
      [Triple.mk (rule.subjPre ++ v) rdfType rule.subject_class] := by
  have hsubj : subjectOf rule row = rule.subjPre ++ v := by
    rw [subjectOf, hid]; rfl
  simp only [row_triples, hsubj, List.filter_cons]
  have h1 : ((Triple.mk (rule.subjPre ++ v) rdfType rule.subject_class).pred == rdfType) = true := by
    simp
  rw [if_pos h1]
  have h2 : (rule.properties.filterMap (fun pc =>
      (rowGet row pc.2).map (fun w => Triple.mk (rule.subjPre ++ v) pc.1 w))).filter
        (fun t => t.pred == rdfType) = [] := by
    rw [List.filter_eq_nil_iff]
    intro t ht
    rcases List.mem_filterMap.mp ht with ⟨pc, hpc, hf⟩
    rcases Option.map_eq_some'.mp hf with ⟨w, _, heq⟩
    have : t.pred = pc.1 := by rw [← heq]
    simp [this, hty _ hpc]
  rw [h2]

/-- C1: for every recognized Mapping Rule, every decoded row and every
`(propertyName, sourceColumn)` pair of the rule, a property triple
`(subject, propertyName, value)` is emitted iff the cell of the row at
`sourceColumn` is present; an absent cell produces no triple for that
property, no placeholder and no error. -/
theorem C1_property_triple_iff_present (rule : MappingRule) (hr : rule ∈ allRules)
    (row : Row) (p c : String) (hpc : (p, c) ∈ rule.properties) :
    (∃ v, Triple.mk (subjectOf rule row) p v ∈ row_triples rule row) ↔
      (rowGet row c).isSome := by
  fin_cases hr <;> exact prop_triple_iff_present _ row p c hpc (by decide) (by decide)

/-- Witness for C1: the Hierarchy rule, the row
`(parentId=100, childId=200, type=ADM)` and the `childId` property. -/
theorem C1_property_triple_iff_present_witness :
    (hierarchyRule ∈ allRules) ∧ ((exTerm "childId", "childId") ∈ hierarchyRule.properties) ∧
    ((∃ v, Triple.mk (subjectOf hierarchyRule hrow1) (exTerm "childId") v ∈
        row_triples hierarchyRule hrow1) ↔ (rowGet hrow1 "childId").isSome) :=
  ⟨by decide, by decide,
    C1_property_triple_iff_present hierarchyRule (by decide) hrow1 (exTerm "childId") "childId"
      (by decide)⟩

/-- C2: for every recognized Mapping Rule and every row whose identifier
cell is present with raw value `v`, the row emits exactly one
type-assertion triple; its subject is the entity pre-string concatenated
with `v` and its object is the type identifier of the EntityKind. -/
theorem C2_type_assertion_unique (rule : MappingRule) (hr : rule ∈ allRules)
    (row : Row) (v : String) (hid : rowGet row rule.id_column = some v) :
    (row_triples rule row).filter (fun t => t.pred == rdfType) =
      [Triple.mk (rule.subjPre ++ v) rdfType rule.subject_class] := by
  fin_cases hr <;> exact type_triples_of_row _ row v hid (by decide)

/-- Witness for C2: the Hierarchy rule on the row
`(parentId=100, childId=200, type=ADM)`. -/
theorem C2_type_assertion_unique_witness :
    (hierarchyRule ∈ allRules) ∧ (rowGet hrow1 hierarchyRule.id_column = some "100") ∧
    ((row_triples hierarchyRule hrow1).filter (fun t => t.pred == rdfType) =
      [Triple.mk (hierarchyRule.subjPre ++ "100") rdfType hierarchyRule.subject_class]) :=
  ⟨by decide, rfl, C2_type_assertion_unique hierarchyRule (by decide) hrow1 "100" rfl⟩

/-- C3 counterexample: a `hierarchy.txt` row with an absent `parentId`
does not fail and is not skipped; the code silently emits triples whose
subject appends `nan` (the f-string rendering of the missing value) to
the entity pre-string — there is no `MissingIdentifier` condition. -/
theorem C3_missing_identifier_counterexample :
    process_hierarchy [hrow_noid] =
      [Triple.mk (exTerm "hierarchy" ++ "nan") rdfType (exTerm "Hierarchy"),
       Triple.mk (exTerm "hierarchy" ++ "nan") (exTerm "childId") "200",
       Triple.mk (exTerm "hierarchy" ++ "nan") (exTerm "type") "ADM"] := by decide

/-- C3 amended: for every rule, a row whose identifier cell is absent does
not fail: a type-assertion triple is still emitted, and every triple of
the row carries the subject built by appending `nan` to the entity
pre-string. -/
theorem C3_missing_identifier_silent (rule : MappingRule) (row : Row)
    (hid : rowGet row rule.id_column = none) :
    (row_triples rule row).head? =
      some (Triple.mk (rule.subjPre ++ "nan") rdfType rule.subject_class)
    ∧ ∀ t ∈ row_triples rule row, t.subj = rule.subjPre ++ "nan" := by
  have hs : subjectOf rule row = rule.subjPre ++ "nan" := by
    rw [subjectOf, hid]; rfl
  refine ⟨?_, ?_⟩
  · simp only [row_triples, hs, List.head?_cons]
  · intro t ht
    rw [subj_of_mem_row_triples rule row t ht, hs]

/-- Witness for the amended C3: the Hierarchy rule on a row with absent
`parentId`. -/
theorem C3_missing_identifier_silent_witness :
    (rowGet hrow_noid hierarchyRule.id_column = none) ∧
    (row_triples hierarchyRule hrow_noid).head? =
      some (Triple.mk (hierarchyRule.subjPre ++ "nan") rdfType hierarchyRule.subject_class) :=
  ⟨rfl, (C3_missing_identifier_silent hierarchyRule hrow_noid rfl).1⟩

/-- C4 counterexample: the two-row hierarchy file yields six property
triples, not the four the claim states (the rule also maps `parentId`
itself as a property). -/
theorem C4_hierarchy_counterexample :
    ¬ (((process_file "hierarchy.txt" hierDf).filter (fun t => t.pred != rdfType)).length = 4) := by
  decide

/-- C4 amended: processing `hierarchy.txt` with exactly the rows
`(parentId=100, childId=200, type=ADM)` and `(parentId=100, childId=300,
type=ADM)` yields a single subject (the entity pre-string followed by
`100`), not two separate subjects, carrying six property triples in total
— two `parentId`, two `childId` and two `type` — plus two type-assertion
triples. -/
theorem C4_hierarchy_single_subject :
    process_file "hierarchy.txt" hierDf =
      [Triple.mk (exTerm "hierarchy" ++ "100") rdfType (exTerm "Hierarchy"),
       Triple.mk (exTerm "hierarchy" ++ "100") (exTerm "parentId") "100",
       Triple.mk (exTerm "hierarchy" ++ "100") (exTerm "childId") "200",
       Triple.mk (exTerm "hierarchy" ++ "100") (exTerm "type") "ADM",
       Triple.mk (exTerm "hierarchy" ++ "100") rdfType (exTerm "Hierarchy"),
       Triple.mk (exTerm "hierarchy" ++ "100") (exTerm "parentId") "100",
       Triple.mk (exTerm "hierarchy" ++ "100") (exTerm "childId") "300",
       Triple.mk (exTerm "hierarchy" ++ "100") (exTerm "type") "ADM"]
    ∧ (∀ t ∈ process_file "hierarchy.txt" hierDf, t.subj = exTerm "hierarchy" ++ "100")
    ∧ ((process_file "hierarchy.txt" hierDf).filter (fun t => t.pred != rdfType)).length = 6 := by
  refine ⟨by decide, by decide, by decide⟩

/-- C5 counterexample: the `ISO=FR, Country=France, Capital=Paris,
Population=67000000, Postal Code Format=#####` row yields five property
triples, not the three the claim states (`ISO` itself is a mapped
property, and the claim even lists four names). -/
theorem C5_country_info_counterexample :
    ¬ (((process_country_info [frRow]).filter (fun t => t.pred != rdfType)).length = 3) := by
  decide

/-- C5 amended: the row yields a type-assertion triple for the subject
built from `FR` plus exactly five property triples — iso, country,
capital, population and postal-code-format, the mapped present columns —
and never a triple for `neighbours` or `languages` even though those
cells are populated in the record. -/
theorem C5_country_info_row :
    process_country_info [frRow] =
      [Triple.mk (exTerm "countryInfo" ++ "FR") rdfType (exTerm "CountryInfo"),
       Triple.mk (exTerm "countryInfo" ++ "FR") (exTerm "iso") "FR",
       Triple.mk (exTerm "countryInfo" ++ "FR") (exTerm "country") "France",
       Triple.mk (exTerm "countryInfo" ++ "FR") (exTerm "capital") "Paris",
       Triple.mk (exTerm "countryInfo" ++ "FR") (exTerm "population") "67000000",
       Triple.mk (exTerm "countryInfo" ++ "FR") (exTerm "postal_code_format") "#####"]
    ∧ (∀ t ∈ process_country_info [frRow],
        t.pred ≠ exTerm "neighbours" ∧ t.pred ≠ exTerm "languages" ∧ t.pred ≠ exTerm "Languages") := by
  refine ⟨by decide, by decide⟩

/-- C6 counterexample: adding the same triple twice to the store leaves it
with one copy — the second `add` of an already-present triple does not
change the physical store, so duplicates do not accumulate. -/
theorem C6_duplicate_counterexample :
    Graph.addTriple (Graph.addTriple [] (Triple.mk "s" "p" "o")) (Triple.mk "s" "p" "o") =
      Graph.addTriple [] (Triple.mk "s" "p" "o")
    ∧ (Graph.addTriple (Graph.addTriple [] (Triple.mk "s" "p" "o")) (Triple.mk "s" "p" "o")).length = 1 := by
  refine ⟨by decide, by decide⟩

/-- C6 amended: the graph store has set semantics — adding an
already-present triple leaves the accumulated graph unchanged. -/
theorem C6_add_present_triple_noop (g : Graph) (t : Triple) (h : t ∈ g) :
    Graph.addTriple g t = g := by
  simp [Graph.addTriple, h]

/-- Witness for the amended C6: re-adding the one triple of a singleton
store. -/
theorem C6_add_present_triple_noop_witness :
    ((Triple.mk "s" "p" "o") ∈ ([Triple.mk "s" "p" "o"] : Graph)) ∧
    Graph.addTriple [Triple.mk "s" "p" "o"] (Triple.mk "s" "p" "o") = [Triple.mk "s" "p" "o"] :=
  ⟨by decide, C6_add_present_triple_noop [Triple.mk "s" "p" "o"] (Triple.mk "s" "p" "o") (by decide)⟩

/-- C7: when the first decoded row of `iso-languagecodes.txt` is the
restated header, the emitted triples are exactly those of the remaining
rows — the header row contributes zero triples. -/
theorem C7_iso_header_row_dropped : ∀ rest : List (List (Option String)),
    process_file "iso-languagecodes.txt" (isoHeaderRaw :: rest) =
      process_iso_language_codes (rest.map (mkRow isoColumnsList)) := fun _ => rfl

/-- C8: the four city file names are routed to the same Mapping Rule; for
any fixed decoded rows, all four produce the very same triples, so the
file name does not influence the emitted data. -/
theorem C8_city_variants_identical : ∀ df : List (List (Option String)),
    process_file "cities1000.txt" df = process_file "cities500.txt" df
    ∧ process_file "cities5000.txt" df = process_file "cities500.txt" df
    ∧ process_file "cities15000.txt" df = process_file "cities500.txt" df :=
  fun _ => ⟨rfl, rfl, rfl⟩

/-- C9: a file name absent from the recognized-name table emits zero
triples, leaves any accumulated graph unchanged, and returns without a
fatal error (the embedding is total). -/
theorem C9_unrecognized_file_skipped (file_name : String) (df : List (List (Option String)))
    (h : file_columns.find? (fun p => p.1 == file_name) = none) :
    process_file file_name df = []
    ∧ ∀ g : Graph, (process_file file_name df).foldl Graph.addTriple g = g := by
  have h1 : process_file file_name df = [] := by
    rw [process_file, h]
  exact ⟨h1, fun g => by rw [h1]; rfl⟩

/-- Witness for C9: `readme.txt` with one decoded row. -/
theorem C9_unrecognized_file_skipped_witness :
    (file_columns.find? (fun p => p.1 == "readme.txt") = none) ∧
    process_file "readme.txt" [[some "x"]] = [] :=
  ⟨by decide, (C9_unrecognized_file_skipped "readme.txt" [[some "x"]] (by decide)).1⟩

/-- C10: for `iso-languagecodes.txt` the first decoded row is removed
unconditionally, whatever its content — even genuine data in the first
row contributes zero triples. -/
theorem C10_iso_first_row_always_dropped :
    ∀ (r0 : List (Option String)) (rest : List (List (Option String))),
    process_file "iso-languagecodes.txt" (r0 :: rest) =
      process_iso_language_codes (rest.map (mkRow isoColumnsList)) := fun _ _ => rfl
